import Mathlib

/-!
# Verification of the Samsung MDC display controller
  (`src/clean_video_wall_system.py`, class `SamsungLH55BECHLGFXGOController`)

Shallow embedding of the packet codec (`_create_mdc_packet`,
`_parse_mdc_response`), the connection lifecycle (`connect`, `disconnect`),
the retrying command executor (`send_command`) and the health-check
orchestrator (`health_check`), together with proofs and refutations of the
specification's claims about them.

Bytes are modelled as `Nat` (the byte range `< 256` appears as an explicit
hypothesis where it matters); byte strings are `List Nat`.  I/O and the
network are modelled as explicit outcome oracles supplied to the state
transition functions; the `datetime.now()` timestamps are abstracted to a
flag recording that `last_seen` was written.
-/

namespace SamVCP

/-! ## Packet codec -/

/-- The MDC checksum as computed by both `_create_mdc_packet` (line 278) and
`_parse_mdc_response` (line 307):
`(header + cmd + display_id + data_length + sum(data)) & 0xFF` with
`header = 0xAA`.  `data_length` is passed separately because the parser
computes it from the frame's length byte, not from the data it extracted. -/
def mdc_checksum (cmd display_id data_length : Nat) (data : List Nat) : Nat :=
  (0xAA + cmd + display_id + data_length + data.sum) % 256

/-- Model of `_create_mdc_packet` (lines 270-285):
`[0xAA][cmd][display_id][len(data)][data...][checksum]`. -/
def create_mdc_packet (display_id cmd : Nat) (data : List Nat) : List Nat :=
  [0xAA, cmd, display_id, data.length] ++ data
    ++ [mdc_checksum cmd display_id data.length data]

/-- Result of `_parse_mdc_response`: the Python function returns a dict with
`success: False, error: ...` or `success: True, command: ..., data: ...`. -/
inductive ParseResult where
  | failure (error : String)
  | success (command : Nat) (data : List Nat)
deriving DecidableEq, Repr

/-- Output of `_parse_mdc_response` together with whether the checksum-mismatch
warning of line 310 was logged (the source only logs; it never fails on it). -/
structure ParseOutput where
  result : ParseResult
  checksum_warning : Bool
deriving DecidableEq, Repr

/-- Model of `_parse_mdc_response` (lines 287-321).  Notes from the source:
* fewer than 4 bytes → `'Response too short'` (line 289);
* header ≠ 0xAA → `'Invalid header'`; frame display id ≠ `self.display_id` →
  `'Display ID mismatch'`;
* the payload is the Python slice `response[4:4+data_length]`, which silently
  truncates when `data_length` exceeds the bytes available (line 303) — there
  is no length validation;
* when a byte beyond the declared payload exists (`len(response) > 4 +
  data_length`, line 305) it is compared against the computed checksum and a
  mismatch is only logged (line 310);
* `struct.error` cannot occur once the length-4 check passed, so the
  `except` branch of line 320 is unreachable and is not modelled. -/
def parse_mdc_response (self_display_id : Nat) (response : List Nat) :
    ParseOutput :=
  match response with
  | header :: cmd :: display_id :: data_length :: rest =>
    if header ≠ 0xAA then ⟨.failure ("Invalid header"), false⟩
    else if display_id ≠ self_display_id then
      ⟨.failure ("Display ID mismatch"), false⟩
    else
      let data := rest.take data_length
      let warning :=
        if data_length < rest.length then
          decide (rest.getD data_length 0 ≠
            mdc_checksum cmd display_id data_length data)
        else false
      ⟨.success cmd data, warning⟩
  | _ => ⟨.failure ("Response too short"), false⟩

/-! ## Connection session and controller state

The mutable controller/`DisplayStatus` fields that the protocol logic reads
or writes.  `has_last_seen` abstracts the `datetime.now()` timestamp written
to `status.last_seen` (only its presence matters to the claims);
`serial_number`/`software_version` hold the raw response bytes (the source
stores their ASCII decoding, which no claim inspects). -/
structure CState where
  connected : Bool := false
  online : Bool := false
  responsive : Bool := false
  error_count : Nat := 0
  has_last_seen : Bool := false
  power : Bool := false
  temperature : Option Nat := none
  serial_number : Option (List Nat) := none
  software_version : Option (List Nat) := none
deriving DecidableEq, Repr

/-- Outcome of one `asyncio.open_connection` attempt: success, the
`asyncio.TimeoutError` branch (line 247), or any other exception
(line 251). -/
inductive ConnectOutcome where
  | ok
  | timeout
  | err
deriving DecidableEq, Repr

/-- Model of `connect` (lines 229-255).  Success: `connected := True`,
`online := True`, `last_seen := now`, `error_count := 0`.  Timeout: only
`online := False`.  Other exception: `online := False` and
`error_count += 1`.  Neither failure branch touches `self.connected`. -/
def connect (s : CState) (out : ConnectOutcome) : CState × Bool :=
  match out with
  | .ok =>
    ({ s with connected := true, online := true, has_last_seen := true,
              error_count := 0 }, true)
  | .timeout => ({ s with online := false }, false)
  | .err => ({ s with online := false, error_count := s.error_count + 1 },
             false)

/-- Model of `disconnect` (lines 257-268): closes the writer and clears
`connected`/`reader`/`writer`; no status fields change. -/
def disconnect (s : CState) : CState :=
  { s with connected := false }

/-- Outcome of `self.writer.write(packet); await self.writer.drain()`:
either it completes or raises (caught by the outer `except` of line 367). -/
inductive IoOutcome where
  | ok
  | exn
deriving DecidableEq, Repr

/-- Outcome of `await asyncio.wait_for(self.reader.read(1024), ...)`:
a timeout (line 358), some bytes (possibly none, i.e. EOF), or another
exception reaching the outer `except`. -/
inductive ReadOutcome where
  | timeout
  | exn
  | resp (bytes : List Nat)
deriving DecidableEq, Repr

/-- The network/I/O environment of one `send_command` call: for each attempt
index, the outcome of the connect (if one happens), of the write, and of the
read (if one happens). -/
structure Env where
  connectOut : Nat → ConnectOutcome
  writeOut : Nat → IoOutcome
  readOut : Nat → ReadOutcome

/-- Observable I/O events of a `send_command`/`health_check` run, in order:
a connect attempt, a frame write, a response read, and the retry sleep
`await asyncio.sleep(1)` of line 373. -/
inductive Event where
  | conn
  | write
  | read
  | sleep
deriving DecidableEq, Repr

/-- The dict returned by `send_command`: the parsed response
(`success: True` with `command` and `data`), the `success: True` message for
a command sent without expecting a response (line 365), or the terminal
`success: False` dict (line 377). -/
inductive CmdResult where
  | ok (command : Nat) (data : List Nat)
  | sent
  | failed
deriving DecidableEq, Repr

/-- One iteration of the `for attempt in range(self.max_retries)` loop of
`send_command` either returns from the function or falls through/`continue`s
to the next attempt. -/
inductive AttemptRes where
  | done (s : CState) (r : CmdResult) (ev : List Event)
  | again (s : CState) (ev : List Event)
deriving Repr

/-- The post-connection body of one attempt of `send_command` (lines
334-373), starting from the packet write of line 338:
* the write (an exception goes to the outer `except` of line 367: mark
  disconnected, bump `error_count`, sleep unless this was the last attempt);
* if a response is expected, read: a timeout marks disconnected and
  `continue`s (no sleep, no error bump); an empty read falls through; a
  parse failure logs and falls through (line 356); a parse success sets
  `responsive`/`last_seen` and returns the parsed dict (lines 352-354);
* if no response is expected, set `last_seen` and return success (line 365). -/
def attempt_send (self_id : Nat) (expect : Bool) (env : Env)
    (max_retries attempt : Nat) (s1 : CState) (ev1 : List Event) : AttemptRes :=
  match env.writeOut attempt with
  | .exn =>
    let s2 := { s1 with connected := false,
                        error_count := s1.error_count + 1 }
    let evS := if attempt < max_retries - 1 then [Event.sleep] else []
    .again s2 (ev1 ++ [Event.write] ++ evS)
  | .ok =>
    if expect then
      match env.readOut attempt with
      | .timeout =>
        .again { s1 with connected := false } (ev1 ++ [Event.write, Event.read])
      | .exn =>
        let s2 := { s1 with connected := false,
                            error_count := s1.error_count + 1 }
        let evS := if attempt < max_retries - 1 then [Event.sleep] else []
        .again s2 (ev1 ++ [Event.write, Event.read] ++ evS)
      | .resp bytes =>
        if bytes = [] then .again s1 (ev1 ++ [Event.write, Event.read])
        else
          match (parse_mdc_response self_id bytes).result with
          | .success c d =>
            .done { s1 with responsive := true, has_last_seen := true }
              (.ok c d) (ev1 ++ [Event.write, Event.read])
          | .failure _ =>
            .again s1 (ev1 ++ [Event.write, Event.read])
    else
      .done { s1 with has_last_seen := true } .sent (ev1 ++ [Event.write])

/-- One iteration of the retry loop: the connection-ensuring prefix of the
attempt (lines 330-332), then `attempt_send`.  A failed `connect()` hits the
`continue` of line 332 with no sleep and no write. -/
def attempt_step (self_id : Nat) (expect : Bool) (env : Env)
    (max_retries attempt : Nat) (s : CState) : AttemptRes :=
  if s.connected then attempt_send self_id expect env max_retries attempt s []
  else
    let (s1, okc) := connect s (env.connectOut attempt)
    if okc then attempt_send self_id expect env max_retries attempt s1 [Event.conn]
    else .again s1 [Event.conn]

/-- The retry loop of `send_command`, recursing on the number of remaining
attempts; `attempt = max_retries - remaining` is the source's loop index.
When the attempts are exhausted, `responsive := False` and the
`success: False` dict is returned (lines 375-377). -/
def send_attempts (self_id : Nat) (expect : Bool) (env : Env)
    (max_retries : Nat) : Nat → CState → CState × CmdResult × List Event
  | 0, s => ({ s with responsive := false }, .failed, [])
  | remaining + 1, s =>
    match attempt_step self_id expect env max_retries
        (max_retries - (remaining + 1)) s with
    | .done s1 r ev => (s1, r, ev)
    | .again s1 ev =>
      let (s2, r, ev2) := send_attempts self_id expect env max_retries
        remaining s1
      (s2, r, ev ++ ev2)

/-- Model of `send_command` (lines 323-377).  The command code and payload only
influence the written frame, which the event trace abstracts, so they are
not parameters of the transition; the parsed command/data of the response
are returned as produced by `_parse_mdc_response`. -/
def send_command (self_id : Nat) (expect : Bool) (env : Env)
    (max_retries : Nat) (s : CState) : CState × CmdResult × List Event :=
  send_attempts self_id expect env max_retries max_retries s



/-! ## Status getters used by the health check -/

/-- The `result['success']` field of a `send_command` result dict: true for both
success shapes, false for the terminal failure dict. -/
def cmd_success (r : CmdResult) : Bool :=
  match r with
  | .failed => false
  | _ => true

/-- Model of `get_power_status` (lines 394-401): on a successful response with
non-empty data, `status.power := data[0] == PowerState.ON.value` and the
`power_on` key is added to the result (returned here as the `Option Bool`
component). -/
def get_power_status (self_id : Nat) (env : Env) (max_retries : Nat)
    (s : CState) : CState × CmdResult × Option Bool × List Event :=
  let (s1, r, ev) := send_command self_id true env max_retries s
  match r with
  | .ok _ d =>
    if d = [] then (s1, r, none, ev)
    else
      let p := d.headD 0 == 1
      ({ s1 with power := p }, r, some p, ev)
  | _ => (s1, r, none, ev)

/-- Model of `get_temperature` (lines 458-465): on success with at least one data
byte, `status.temperature := data[0]` and the `temperature` key is added to
the result (the `Option Nat` component). -/
def get_temperature (self_id : Nat) (env : Env) (max_retries : Nat)
    (s : CState) : CState × CmdResult × Option Nat × List Event :=
  let (s1, r, ev) := send_command self_id true env max_retries s
  match r with
  | .ok _ d =>
    if 1 ≤ d.length then
      ({ s1 with temperature := some (d.headD 0) }, r, some (d.headD 0), ev)
    else (s1, r, none, ev)
  | _ => (s1, r, none, ev)

/-- Model of `get_serial_number` (lines 467-474): on success with non-empty data the
serial is stored on the status and the `serial_number` key added (the `Bool`
component records the key's presence).  The source stores the ASCII-decoded
stripped text; the model keeps the raw bytes, which no claim inspects. -/
def get_serial_number (self_id : Nat) (env : Env) (max_retries : Nat)
    (s : CState) : CState × CmdResult × Bool × List Event :=
  let (s1, r, ev) := send_command self_id true env max_retries s
  match r with
  | .ok _ d =>
    if d = [] then (s1, r, false, ev)
    else ({ s1 with serial_number := some d }, r, true, ev)
  | _ => (s1, r, false, ev)

/-- Model of `get_model_number` (lines 476-482): adds the `model_number` key on
success with non-empty data; unlike the other getters it does not write any
status field. -/
def get_model_number (self_id : Nat) (env : Env) (max_retries : Nat)
    (s : CState) : CState × CmdResult × Bool × List Event :=
  let (s1, r, ev) := send_command self_id true env max_retries s
  match r with
  | .ok _ d => (s1, r, decide ¬(d = []), ev)
  | _ => (s1, r, false, ev)

/-- Model of `get_software_version` (lines 484-491): like `get_serial_number`, storing
`status.software_version`. -/
def get_software_version (self_id : Nat) (env : Env) (max_retries : Nat)
    (s : CState) : CState × CmdResult × Bool × List Event :=
  let (s1, r, ev) := send_command self_id true env max_retries s
  match r with
  | .ok _ d =>
    if d = [] then (s1, r, false, ev)
    else ({ s1 with software_version := some d }, r, true, ev)
  | _ => (s1, r, false, ev)

/-! ## Health check (`health_check`, lines 522-628) -/

/-- Temperature classification of line 579:
`'normal' if temp < 60 else 'warning' if temp < 70 else 'critical'`. -/
def temp_status (temp : Nat) : String :=
  if temp < 60 then "normal" else if temp < 70 then "warning" else "critical"

/-- Whether `needle` is a leading segment of `hay` (character lists). -/
def chars_start : List Char → List Char → Bool
  | [], _ => true
  | _ :: _, [] => false
  | a :: as, b :: bs => a = b && chars_start as bs

/-- Python's substring test `needle in hay` on character lists. -/
def chars_contain (needle : List Char) : List Char → Bool
  | [] => chars_start needle []
  | hay@(_ :: rest) => chars_start needle hay || chars_contain needle rest

/-- Line 616: `'critical' in issue.lower() or 'failed' in issue.lower()`. -/
def issue_flags_critical (issue : String) : Bool :=
  chars_contain ("critical".toList) (issue.toList.map Char.toLower) ||
    chars_contain ("failed".toList) (issue.toList.map Char.toLower)

/-- Lines 614-619: overall health from the collected issue list. -/
def overall_from_issues (issues : List String) : String :=
  if issues = [] then "healthy"
  else if issues.any issue_flags_critical then "critical"
  else "warning"

/-- The `health_data` dict built by `health_check`, restricted to the keys
the verified claims read.  `issues := none` models the `issues` key being
absent from the dict (it is only written at line 621). -/
structure HealthReport where
  connection_status : String := "unknown"
  connection_error_count : Nat := 0
  connection_has_last_seen : Bool := false
  power_status : String := "unknown"
  power_responsive : Option Bool := none
  temperature_status : String := "unknown"
  temperature_value : Option Nat := none
  has_serial : Bool := false
  has_model : Bool := false
  has_version : Bool := false
  overall_health : String := "unknown"
  issues : Option (List String) := none
deriving DecidableEq, Repr

/-- The I/O environment of one `health_check` call: the connect outcome for
the initial connection test and one `send_command` environment per
diagnostic command. -/
structure HealthEnv where
  connectOut : ConnectOutcome
  powerEnv : Env
  tempEnv : Env
  serialEnv : Env
  modelEnv : Env
  versionEnv : Env

/-- Model of `health_check` (lines 522-628):
1. ensure connected (lines 540-544); the `connection` entry records the
   outcome and the post-attempt `error_count`; on failure, append
   `'Connection failed'` to the local `issues` list, set
   `overall_health := 'critical'` and return — NOTE: this early return (line
   555) happens before `health_data['issues'] = issues` (line 621), so the
   returned dict has no `issues` key;
2. power status via `get_power_status` (lines 558-570), a failure appending
   `'Power status check failed'`;
3. temperature via `get_temperature` (lines 573-589), classified by
   `temp_status`, with `'High temperature: ...'` appended when ≥ 70;
4. best-effort serial/model/version (lines 592-611).  The source runs these
   three getters with `asyncio.gather`, i.e. concurrently over the same
   socket; the model composes them in program order.  This serialization is
   faithful for the pre-gather fail-fast path (all that the verified claims
   evaluate) but drops gather interleavings — in particular schedules where
   the tasks' guarded check-then-connect sequences race, one task's
   successful connect landing before another task's connect raises into the
   `error_count += 1` of line 254;
5. overall health from the issues (lines 613-619) and the `issues` key
   written (line 621).
The `try`/`except` wrappers never fire in the model because `send_command`
catches its own exceptions and returns a dict. -/
def health_check (self_id : Nat) (henv : HealthEnv) (max_retries : Nat)
    (s : CState) : CState × HealthReport × List Event :=
  let (s1, connection_success, ev1) :=
    if s.connected then (s, true, ([] : List Event))
    else
      let (s1, okc) := connect s henv.connectOut
      (s1, okc, [Event.conn])
  let report0 : HealthReport :=
    { connection_status := if connection_success then "connected" else "failed"
      connection_error_count := s1.error_count
      connection_has_last_seen := s1.has_last_seen }
  if connection_success then
    let (s2, pr, power_on, ev2) := get_power_status self_id henv.powerEnv
      max_retries s1
    let issues1 := if cmd_success pr then ([] : List String)
      else ["Power status check failed"]
    let report1 : HealthReport :=
      { report0 with
        power_status := if power_on.getD false then "on" else "off"
        power_responsive := some (cmd_success pr) }
    let (s3, _, temp_opt, ev3) := get_temperature self_id henv.tempEnv
      max_retries s2
    let (report2, issues2) :=
      match temp_opt with
      | some temp =>
        ({ report1 with
           temperature_status := temp_status temp
           temperature_value := some temp },
         if 70 ≤ temp then ["High temperature: " ++ toString temp ++ "°C"]
         else [])
      | none => ({ report1 with temperature_status := "unavailable" }, [])
    let (s4, _, has_serial, ev4) := get_serial_number self_id henv.serialEnv
      max_retries s3
    let (s5, _, has_model, ev5) := get_model_number self_id henv.modelEnv
      max_retries s4
    let (s6, _, has_version, ev6) := get_software_version self_id
      henv.versionEnv max_retries s5
    let issues := issues1 ++ issues2
    let report : HealthReport :=
      { report2 with
        has_serial := has_serial
        has_model := has_model
        has_version := has_version
        overall_health := overall_from_issues issues
        issues := some issues }
    (s6, report, ev1 ++ ev2 ++ ev3 ++ ev4 ++ ev5 ++ ev6)
  else
    (s1, { report0 with overall_health := "critical" }, ev1)

/-! ## Concrete environments for counterexamples and witnesses -/

/-- An environment whose outcomes do not depend on the attempt index. -/
def const_env (c : ConnectOutcome) (w : IoOutcome) (r : ReadOutcome) : Env :=
  ⟨fun _ => c, fun _ => w, fun _ => r⟩

/-- A health-check environment whose initial connection attempt times out
(the per-command environments are never consulted on that path). -/
def c7_fail_env : HealthEnv :=
  { connectOut := .timeout
    powerEnv := const_env .ok .ok (.resp [])
    tempEnv := const_env .ok .ok (.resp [])
    serialEnv := const_env .ok .ok (.resp [])
    modelEnv := const_env .ok .ok (.resp [])
    versionEnv := const_env .ok .ok (.resp []) }

/-- The claimed state invariant of C10: a connected session has a zero
error count. -/
def err_inv (s : CState) : Prop :=
  s.connected = true → s.error_count = 0

/-! ### Codec helper lemmas -/

theorem getD_append_length (l₁ l₂ : List Nat) (d : Nat) :
    (l₁ ++ l₂).getD l₁.length d = l₂.getD 0 d := by
  induction l₁ with
  | nil => rfl
  | cons a as ih => simpa using ih

/-! ### Executor case-analysis lemmas -/

/-- Every branch of `attempt_send` either falls through with `responsive`
untouched, or returns: a parsed success with `responsive := true`, or a
no-response success with `responsive` untouched; it never returns the
`failed` dict (only loop exhaustion produces that). -/
theorem attempt_send_responsive (self_id : Nat) (expect : Bool) (env : Env)
    (mr a : Nat) (s1 : CState) (ev1 : List Event) :
    match attempt_send self_id expect env mr a s1 ev1 with
    | .again s2 _ => s2.responsive = s1.responsive
    | .done s2 r _ =>
      r ≠ .failed ∧ (∀ c d, r = .ok c d → s2.responsive = true) ∧
        (r = .sent → s2.responsive = s1.responsive) := by
  unfold attempt_send
  rcases hw : env.writeOut a with _ | _ <;> cases expect <;> simp only [hw]
  all_goals try simp
  all_goals try (rcases hr : env.readOut a with _ | _ | bytes <;>
    simp only [hr])
  all_goals try (by_cases hb : bytes = [] <;> simp only [hb])
  all_goals try (rcases hp : (parse_mdc_response self_id bytes).result
    with e | ⟨c, d⟩ <;> simp only [hp])
  all_goals simp

/-- The same branch facts lifted over the connection-ensuring prefix. -/
theorem attempt_step_responsive (self_id : Nat) (expect : Bool) (env : Env)
    (mr a : Nat) (s : CState) :
    match attempt_step self_id expect env mr a s with
    | .again s2 _ => s2.responsive = s.responsive
    | .done s2 r _ =>
      r ≠ .failed ∧ (∀ c d, r = .ok c d → s2.responsive = true) ∧
        (r = .sent → s2.responsive = s.responsive) := by
  unfold attempt_step
  by_cases hc : s.connected
  · simpa [hc] using attempt_send_responsive self_id expect env mr a s []
  · rcases hco : env.connectOut a with _ | _ | _ <;>
      simp only [hc, hco, connect, Bool.false_eq_true, if_false]
    any_goals simp
    simpa using attempt_send_responsive self_id expect env mr a
      { s with connected := true, online := true, has_last_seen := true,
               error_count := 0 } [Event.conn]

/-- The loop `send_attempts` leaves `responsive` equal to: `true` after a parsed
success, its previous value after a no-response success, `false` after
exhaustion. -/
theorem send_attempts_responsive (self_id : Nat) (expect : Bool) (env : Env)
    (mr : Nat) : ∀ (remaining : Nat) (s : CState),
    (send_attempts self_id expect env mr remaining s).1.responsive =
      (match (send_attempts self_id expect env mr remaining s).2.1 with
       | CmdResult.ok _ _ => true
       | CmdResult.sent => s.responsive
       | CmdResult.failed => false) := by
  intro remaining
  induction remaining with
  | zero => intro s; rfl
  | succ n ih =>
    intro s
    have hstep := attempt_step_responsive self_id expect env mr
      (mr - (n + 1)) s
    simp only [send_attempts]
    rcases h : attempt_step self_id expect env mr (mr - (n + 1)) s with
      ⟨s2, r, ev⟩ | ⟨s2, ev⟩ <;> rw [h] at hstep <;> simp only [] at hstep
    · rcases r with ⟨c, d⟩ | _ | _
      · simp [hstep.2.1 c d rfl]
      · simp [hstep.2.2 rfl]
      · exact absurd rfl hstep.1
    · rcases hrec : send_attempts self_id expect env mr n s2 with ⟨s3, r3, ev3⟩
      have ih2 := ih s2
      rw [hrec] at ih2
      simp only [hrec]
      rw [ih2]
      cases r3 <;> simp [hstep]

/-- Every branch of `attempt_send` preserves `err_inv`: its only
`error_count` increments come with `connected := false` in the same
update. -/
theorem attempt_send_err_inv (self_id : Nat) (expect : Bool) (env : Env)
    (mr a : Nat) (s1 : CState) (ev1 : List Event) (hs : err_inv s1) :
    match attempt_send self_id expect env mr a s1 ev1 with
    | .again s2 _ => err_inv s2
    | .done s2 _ _ => err_inv s2 := by
  unfold attempt_send
  rcases hw : env.writeOut a with _ | _ <;> cases expect <;> simp only [hw]
  all_goals try (rcases hr : env.readOut a with _ | _ | bytes <;>
    simp only [hr])
  all_goals try (by_cases hb : bytes = [] <;> simp only [hb])
  all_goals try (rcases hp : (parse_mdc_response self_id bytes).result
    with e | ⟨c, d⟩ <;> simp only [hp])
  all_goals simp only [err_inv] at hs ⊢
  all_goals simp
  all_goals exact hs

/-- Preservation of `err_inv` by a full loop iteration: the connect prefix is
only entered when `connected = false`, so the `error_count` increment in
`connect`'s exception branch happens on a disconnected session. -/
theorem attempt_step_err_inv (self_id : Nat) (expect : Bool) (env : Env)
    (mr a : Nat) (s : CState) (hs : err_inv s) :
    match attempt_step self_id expect env mr a s with
    | .again s2 _ => err_inv s2
    | .done s2 _ _ => err_inv s2 := by
  unfold attempt_step
  by_cases hc : s.connected
  · simpa [hc] using attempt_send_err_inv self_id expect env mr a s [] hs
  · rcases hco : env.connectOut a with _ | _ | _ <;>
      simp only [hc, hco, connect, Bool.false_eq_true, if_false]
    · simpa using attempt_send_err_inv self_id expect env mr a
        { s with connected := true, online := true, has_last_seen := true,
                 error_count := 0 } [Event.conn] (by intro h; rfl)
    · simpa [err_inv] using hs
    · simp only [err_inv]
      intro h
      simp at h
  
/-- The whole retry loop preserves `err_inv`. -/
theorem send_attempts_err_inv (self_id : Nat) (expect : Bool) (env : Env)
    (mr : Nat) : ∀ (remaining : Nat) (s : CState), err_inv s →
    err_inv (send_attempts self_id expect env mr remaining s).1 := by
  intro remaining
  induction remaining with
  | zero => intro s hs; exact fun hcon => hs hcon
  | succ n ih =>
    intro s hs
    have hstep := attempt_step_err_inv self_id expect env mr (mr - (n + 1)) s
      hs
    simp only [send_attempts]
    rcases h : attempt_step self_id expect env mr (mr - (n + 1)) s with
      ⟨s2, r, ev⟩ | ⟨s2, ev⟩ <;> rw [h] at hstep <;> simp only [] at hstep
    · simpa using hstep
    · rcases hrec : send_attempts self_id expect env mr n s2 with ⟨s3, r3, ev3⟩
      have h3 := ih s2 hstep
      rw [hrec] at h3
      simpa [hrec] using h3

/-- With an established connection and every read returning the same
unparseable-as-matching frame, the loop performs a write and a read on every
one of its `remaining` attempts and ends in the exhausted failure with
`responsive := false` — it never stops early on the mismatch. -/
theorem send_attempts_mismatch (self_id : Nat) (env : Env) (bad : List Nat)
    (err : String) (mr : Nat) (hw : ∀ a, env.writeOut a = IoOutcome.ok)
    (hr : ∀ a, env.readOut a = ReadOutcome.resp bad) (hbad : ¬bad = [])
    (hparse : (parse_mdc_response self_id bad).result =
      ParseResult.failure err) :
    ∀ (remaining : Nat) (s : CState), s.connected = true →
      send_attempts self_id true env mr remaining s =
        ({ s with responsive := false }, CmdResult.failed,
          (List.replicate remaining [Event.write, Event.read]).flatten) := by
  intro remaining
  induction remaining with
  | zero => intro s hc; rfl
  | succ n ih =>
    intro s hc
    have hstep : attempt_step self_id true env mr (mr - (n + 1)) s =
        .again s [Event.write, Event.read] := by
      unfold attempt_step attempt_send
      simp [hc, hw, hr, hbad, hparse]
    simp only [send_attempts, hstep]
    rw [ih s hc]
    simp [List.replicate_succ]

/-- With a disconnected session and every connect attempt timing out, the
loop performs exactly one connect per attempt — no write, no read and no
sleep — and ends in the exhausted failure. -/
theorem send_attempts_connect_fail (self_id : Nat) (expect : Bool)
    (env : Env) (mr : Nat)
    (hf : ∀ a, env.connectOut a = ConnectOutcome.timeout) :
    ∀ (remaining : Nat) (s : CState), s.connected = false → 1 ≤ remaining →
      send_attempts self_id expect env mr remaining s =
        ({ s with online := false, responsive := false }, CmdResult.failed,
          List.replicate remaining Event.conn) := by
  intro remaining
  induction remaining with
  | zero => intro s hc h1; exact absurd h1 (by omega)
  | succ n ih =>
    intro s hc _
    have hstep : attempt_step self_id expect env mr (mr - (n + 1)) s =
        .again { s with online := false } [Event.conn] := by
      unfold attempt_step
      simp [hc, hf, connect]
    simp only [send_attempts, hstep]
    rcases Nat.eq_zero_or_pos n with hn | hn
    · subst hn
      simp [send_attempts]
    · rw [ih { s with online := false } hc hn]
      simp [List.replicate_succ]

/-! ## Claims C5-C10: executor, health check, invariants -/

/-- C5 (counterexample): with display id 1, an established connection,
`max_retries = 3` and every read returning the frame `AA 11 02 00` (display
id 2, a protocol mismatch: `'Display ID mismatch'`), `send_command` does NOT
return after the first mismatched response: the trace shows three writes and
three reads, and the failure dict is only returned after all three attempts.
This refutes the claim that a protocol-mismatch decode makes executeCommand
return Failure immediately with no further retries, writes or reads. -/
theorem C5_counterexample :
    send_command 1 true (const_env .ok .ok (.resp [0xAA, 0x11, 2, 0])) 3
        { connected := true } =
      (({ connected := true } : CState), CmdResult.failed,
        [Event.write, Event.read, Event.write, Event.read,
          Event.write, Event.read]) := by
  decide

/-- C5 (amended): a response decoding as a protocol mismatch (bad header or
wrong display id) does not short-circuit `send_command`: the mismatch is
only logged (line 356 falls through), the frame is re-written on every one
of the `max_retries` attempts, and the exhausted-attempts failure dict is
returned with `responsive := false`. -/
theorem C5_mismatch_is_retried (self_id : Nat) (env : Env) (bad : List Nat)
    (err : String) (mr : Nat) (s : CState) (hc : s.connected = true)
    (hw : ∀ a, env.writeOut a = IoOutcome.ok)
    (hr : ∀ a, env.readOut a = ReadOutcome.resp bad) (hbad : ¬bad = [])
    (hparse : (parse_mdc_response self_id bad).result =
      ParseResult.failure err) :
    send_command self_id true env mr s =
      ({ s with responsive := false }, CmdResult.failed,
        (List.replicate mr [Event.write, Event.read]).flatten) :=
  send_attempts_mismatch self_id env bad err mr hw hr hbad hparse mr s hc

/-- C5 witness: two attempts against a bad-header frame `AB 11 03 00`. -/
theorem C5_mismatch_is_retried_witness :
    send_command 3 true (const_env .ok .ok (.resp [0xAB, 0x11, 3, 0])) 2
        { connected := true } =
      (({ connected := true } : CState), CmdResult.failed,
        (List.replicate 2 [Event.write, Event.read]).flatten) :=
  C5_mismatch_is_retried 3 (const_env .ok .ok (.resp [0xAB, 0x11, 3, 0]))
    [0xAB, 0x11, 3, 0] "Invalid header" 2 { connected := true } rfl
    (fun _ => rfl) (fun _ => rfl) (by decide) (by decide)

/-- C6 (counterexample): with `max_retries = 3` and every connect attempt
timing out, `send_command` performs exactly 3 connect attempts, writes
nothing, and fails — but the trace contains NO sleep event: the
`continue` of line 332 skips the `await asyncio.sleep(1)` of line 373, which
only runs on the exception path.  This refutes the clause that the executor
waits the retry delay after each failed connect. -/
theorem C6_counterexample :
    send_command 1 true (const_env .timeout .ok (.resp [])) 3 {} =
        (({} : CState), CmdResult.failed,
          [Event.conn, Event.conn, Event.conn]) ∧
      Event.sleep ∉
        (send_command 1 true (const_env .timeout .ok (.resp [])) 3 {}).2.2 := by
  decide

/-- C6 (amended): with a disconnected session and every connect attempt
failing by timeout, `send_command` performs exactly `max_retries` connect
attempts, never writes a frame, never sleeps, proceeds to each next attempt
immediately, and returns the exhausted-attempts failure with
`responsive := false`. -/
theorem C6_retry_bound (self_id : Nat) (expect : Bool) (env : Env) (mr : Nat)
    (s : CState) (hc : s.connected = false) (h1 : 1 ≤ mr)
    (hf : ∀ a, env.connectOut a = ConnectOutcome.timeout) :
    send_command self_id expect env mr s =
      ({ s with online := false, responsive := false }, CmdResult.failed,
        List.replicate mr Event.conn) :=
  send_attempts_connect_fail self_id expect env mr hf mr s hc h1

/-- C6 witness: three timed-out connects for display 2. -/
theorem C6_retry_bound_witness :
    send_command 2 true (const_env .timeout .ok (.resp [])) 3 {} =
      (({} : CState), CmdResult.failed, List.replicate 3 Event.conn) :=
  C6_retry_bound 2 true (const_env .timeout .ok (.resp [])) 3 {} rfl
    (by decide) (fun _ => rfl)

/-- C9: after any `send_command` call, `responsive` is true exactly when the
call returned a parsed (response-bearing) success, or it was already true
and the call was a write-only success; in particular every failed call
(timeouts and failed exchanges exhaust the retries into the failure dict)
leaves `responsive = false`, and `responsive` can newly become true only
through a successful response-bearing exchange. -/
theorem C9_responsive_characterization (self_id : Nat) (expect : Bool)
    (env : Env) (mr : Nat) (s : CState) :
    (send_command self_id expect env mr s).1.responsive =
      (match (send_command self_id expect env mr s).2.1 with
       | CmdResult.ok _ _ => true
       | CmdResult.sent => s.responsive
       | CmdResult.failed => false) :=
  send_attempts_responsive self_id expect env mr mr s

/-- C10 (counterexample): `connect` invoked on an already-connected session
whose attempt raises a non-timeout exception increments `error_count`
without touching `connected` (lines 251-255), so the state
`connected = true, error_count = 1` violates the invariant — the claim that
every controller operation, `connect` included, preserves it is false. -/
theorem C10_counterexample :
    err_inv { connected := true } ∧
      ¬err_inv (connect { connected := true } ConnectOutcome.err).1 := by
  constructor
  · intro _; rfl
  · intro h
    exact absurd (h rfl) (by decide)

/-- The status-field writes of the getters leave `err_inv` untouched. -/
theorem get_power_status_err_inv (self_id : Nat) (env : Env) (mr : Nat)
    (s : CState) (hs : err_inv s) :
    err_inv (get_power_status self_id env mr s).1 := by
  have h := send_attempts_err_inv self_id true env mr mr s hs
  unfold get_power_status send_command
  rcases hr : send_attempts self_id true env mr mr s with ⟨s1, r, ev⟩
  rw [hr] at h
  simp only [] at h
  rcases r with ⟨c, d⟩ | _ | _ <;> simp only []
  · by_cases hd : d = []
    · simp only [if_pos hd]
      exact h
    · simp only [if_neg hd]
      exact fun hcon => h hcon
  · exact h
  · exact h

theorem get_temperature_err_inv (self_id : Nat) (env : Env) (mr : Nat)
    (s : CState) (hs : err_inv s) :
    err_inv (get_temperature self_id env mr s).1 := by
  have h := send_attempts_err_inv self_id true env mr mr s hs
  unfold get_temperature send_command
  rcases hr : send_attempts self_id true env mr mr s with ⟨s1, r, ev⟩
  rw [hr] at h
  simp only [] at h
  rcases r with ⟨c, d⟩ | _ | _ <;> simp only []
  · by_cases hd : 1 ≤ d.length
    · simp only [if_pos hd]
      exact fun hcon => h hcon
    · simp only [if_neg hd]
      exact h
  · exact h
  · exact h

theorem get_serial_number_err_inv (self_id : Nat) (env : Env) (mr : Nat)
    (s : CState) (hs : err_inv s) :
    err_inv (get_serial_number self_id env mr s).1 := by
  have h := send_attempts_err_inv self_id true env mr mr s hs
  unfold get_serial_number send_command
  rcases hr : send_attempts self_id true env mr mr s with ⟨s1, r, ev⟩
  rw [hr] at h
  simp only [] at h
  rcases r with ⟨c, d⟩ | _ | _ <;> simp only []
  · by_cases hd : d = []
    · simp only [if_pos hd]
      exact h
    · simp only [if_neg hd]
      exact fun hcon => h hcon
  · exact h
  · exact h

theorem get_model_number_err_inv (self_id : Nat) (env : Env) (mr : Nat)
    (s : CState) (hs : err_inv s) :
    err_inv (get_model_number self_id env mr s).1 := by
  have h := send_attempts_err_inv self_id true env mr mr s hs
  unfold get_model_number send_command
  rcases hr : send_attempts self_id true env mr mr s with ⟨s1, r, ev⟩
  rw [hr] at h
  simp only [] at h
  rcases r with ⟨c, d⟩ | _ | _ <;> simp only [] <;> exact h

theorem get_software_version_err_inv (self_id : Nat) (env : Env) (mr : Nat)
    (s : CState) (hs : err_inv s) :
    err_inv (get_software_version self_id env mr s).1 := by
  have h := send_attempts_err_inv self_id true env mr mr s hs
  unfold get_software_version send_command
  rcases hr : send_attempts self_id true env mr mr s with ⟨s1, r, ev⟩
  rw [hr] at h
  simp only [] at h
  rcases r with ⟨c, d⟩ | _ | _ <;> simp only []
  · by_cases hd : d = []
    · simp only [if_pos hd]
      exact h
    · simp only [if_neg hd]
      exact fun hcon => h hcon
  · exact h
  · exact h

/-- C10 (amended): the invariant `connected = true → error_count = 0` is
preserved by the serialized controller operations as the repository invokes
them: `disconnect`, `connect` from a disconnected session (every direct
call site guards it with `if not self.connected`), `send_command` under any
environment, and the setters/getters built on it.  Two operations fall
outside this preservation statement: the unguarded `connect` call on an
already-connected session (per the counterexample), and `health_check`,
whose `asyncio.gather` of the three info getters (lines 592-599) runs their
guarded check-then-connect sequences concurrently — a schedule in which one
task's successful connect (`connected := True`) lands before another task's
connect raises into line 254 (`error_count += 1`, `connected` untouched)
re-creates the same hazard, and such interleavings are outside this
sequential embedding. -/
theorem C10_err_inv_preserved (self_id : Nat) (expect : Bool) (env : Env)
    (mr : Nat) (out : ConnectOutcome) (s : CState)
    (hs : err_inv s) :
    err_inv (disconnect s) ∧
      (s.connected = false → err_inv (connect s out).1) ∧
      err_inv (send_command self_id expect env mr s).1 ∧
      err_inv (get_power_status self_id env mr s).1 ∧
      err_inv (get_temperature self_id env mr s).1 ∧
      err_inv (get_serial_number self_id env mr s).1 ∧
      err_inv (get_model_number self_id env mr s).1 ∧
      err_inv (get_software_version self_id env mr s).1 := by
  refine ⟨?_, ?_, send_attempts_err_inv self_id expect env mr mr s hs,
    get_power_status_err_inv self_id env mr s hs,
    get_temperature_err_inv self_id env mr s hs,
    get_serial_number_err_inv self_id env mr s hs,
    get_model_number_err_inv self_id env mr s hs,
    get_software_version_err_inv self_id env mr s hs⟩
  · intro hcon
    simp [disconnect] at hcon
  · intro hdis
    rcases out with _ | _ | _
    · exact fun _ => rfl
    · exact fun hcon => hs hcon
    · intro hcon
      rw [show (connect s ConnectOutcome.err).1.connected = s.connected
        from rfl] at hcon
      rw [hdis] at hcon
      cases hcon

/-- C10 witness: the preserved invariant at a concrete disconnected state
with one recorded error. -/
theorem C10_err_inv_preserved_witness :
    err_inv (disconnect { error_count := 1 }) ∧
      (({ error_count := 1 } : CState).connected = false →
        err_inv (connect { error_count := 1 } ConnectOutcome.err).1) ∧
      err_inv (send_command 1 true (const_env .ok .ok (.resp [])) 3
        { error_count := 1 }).1 ∧
      err_inv (get_power_status 1 (const_env .ok .ok (.resp [])) 3
        { error_count := 1 }).1 ∧
      err_inv (get_temperature 1 (const_env .ok .ok (.resp [])) 3
        { error_count := 1 }).1 ∧
      err_inv (get_serial_number 1 (const_env .ok .ok (.resp [])) 3
        { error_count := 1 }).1 ∧
      err_inv (get_model_number 1 (const_env .ok .ok (.resp [])) 3
        { error_count := 1 }).1 ∧
      err_inv (get_software_version 1 (const_env .ok .ok (.resp [])) 3
        { error_count := 1 }).1 :=
  C10_err_inv_preserved 1 true (const_env .ok .ok (.resp [])) 3
    ConnectOutcome.err { error_count := 1 } (by intro h; cases h)

/-- C8: the health check classifies a temperature reading `t` as `normal`
exactly when `t < 60`, `warning` exactly when `60 ≤ t ≤ 69`, `critical`
exactly when `t ≥ 70`; in particular 59, 60, 69, 70 classify as normal,
warning, warning, critical. -/
theorem C8_temperature_classification :
    (temp_status 59 = "normal" ∧ temp_status 60 = "warning" ∧
      temp_status 69 = "warning" ∧ temp_status 70 = "critical") ∧
    ∀ t : Nat, (temp_status t = "normal" ↔ t < 60) ∧
      (temp_status t = "warning" ↔ 60 ≤ t ∧ t ≤ 69) ∧
      (temp_status t = "critical" ↔ 70 ≤ t) := by
  refine ⟨by decide, fun t => ?_⟩
  unfold temp_status
  by_cases h1 : t < 60
  · simp only [h1, ite_true, if_true]
    refine ⟨?_, ?_, ?_⟩ <;> simp <;> omega
  · by_cases h2 : t < 70
    · simp only [h1, h2, ite_true, ite_false, if_true, if_false]
      refine ⟨?_, ?_, ?_⟩ <;> simp <;> omega
    · simp only [h1, h2, ite_false, if_false]
      refine ⟨?_, ?_, ?_⟩ <;> simp <;> omega

/-- C7 (code divergence): a health check on a disconnected display whose
connect attempt times out short-circuits after the failed connect — the
event trace is just the connect, with no diagnostic command written — and
reports `overall_health = "critical"`, but the returned report has NO
`issues` entry at all (`issues := none`): the early return at line 555 runs
before line 621 stores the local issues list (which at that point holds
`['Connection failed']`) into the report.  The claim (and spec) state the
report carries `issues = ["Connection failed"]`. -/
theorem C7_connect_fail_report :
    health_check 1 c7_fail_env 3 {} =
      (({} : CState),
        { connection_status := "failed", overall_health := "critical" },
        [Event.conn]) := by
  decide

/-! ## Claims C1-C4: the codec -/

/-- C1 (counterexample): encoding POWER (0x11) for display 1 with payload
[0x01] does NOT yield `AA 11 01 01 01 14`: the source includes the 0xAA
header byte in the checksum sum, so the trailing byte is 0xBE, not 0x14
(0x14 would be the header-excluded sum 0x11+0x01+0x01+0x01). -/
theorem C1_counterexample :
    create_mdc_packet 1 0x11 [0x01] ≠ [0xAA, 0x11, 0x01, 0x01, 0x01, 0x14] := by
  decide

/-- C1 (amended): encoding the POWER command (0x11) for displayId 1 with
payload [0x01] yields the exact byte sequence `AA 11 01 01 01 BE`, the
checksum being `(0xAA + 0x11 + 0x01 + 0x01 + 0x01) & 0xFF = 0xBE`. -/
theorem C1_encode_power_exact :
    create_mdc_packet 1 0x11 [0x01] = [0xAA, 0x11, 0x01, 0x01, 0x01, 0xBE] := by
  decide

/-- C2: for every commandCode byte, displayId byte and payload of 0-255
bytes, decoding the frame produced by `_create_mdc_packet` with the same
displayId succeeds and returns the original commandCode and payload (and the
checksum matches, so no warning is logged). -/
theorem C2_round_trip (cmd display_id : Nat) (data : List Nat)
    (hcmd : cmd < 256) (hid : display_id < 256) (hlen : data.length ≤ 255)
    (hdata : ∀ b ∈ data, b < 256) :
    parse_mdc_response display_id (create_mdc_packet display_id cmd data) =
      ⟨.success cmd data, false⟩ := by
  have hpkt : create_mdc_packet display_id cmd data =
      0xAA :: cmd :: display_id :: data.length ::
        (data ++ [mdc_checksum cmd display_id data.length data]) := by
    simp [create_mdc_packet]
  rw [hpkt]
  simp only [parse_mdc_response]
  rw [if_neg (by simp), if_neg (by simp)]
  have htake : (data ++ [mdc_checksum cmd display_id data.length data]).take
      data.length = data := List.take_left data _
  have hlt : data.length <
      (data ++ [mdc_checksum cmd display_id data.length data]).length := by
    simp
  have hgetD : (data ++ [mdc_checksum cmd display_id data.length data]).getD
      data.length 0 = mdc_checksum cmd display_id data.length data := by
    simpa using getD_append_length data
      [mdc_checksum cmd display_id data.length data] 0
  simp [htake, hlt, hgetD]

/-- C2 witness: the round-trip at displayId 1, POWER command, payload [0x01]. -/
theorem C2_round_trip_witness :
    parse_mdc_response 1 (create_mdc_packet 1 0x11 [0x01]) =
      ⟨.success 0x11 [0x01], false⟩ :=
  C2_round_trip 0x11 1 [0x01] (by decide) (by decide) (by decide)
    (by intro b hb; simp at hb; omega)

/-- C3: for every otherwise well-formed frame (header 0xAA, displayId equal
to the target, declared payload length covered, a trailing byte present)
whose trailing checksum byte differs from the computed checksum, decode still
returns success with the declared payload; the mismatch only sets the
logged-warning flag.  (`dl < rest.length` says the frame extends beyond the
declared payload, i.e. a trailing checksum byte exists.) -/
theorem C3_checksum_tolerance (self_id cmd dl : Nat) (rest : List Nat)
    (hcover : dl < rest.length)
    (hmismatch : rest.getD dl 0 ≠ mdc_checksum cmd self_id dl (rest.take dl)) :
    parse_mdc_response self_id (0xAA :: cmd :: self_id :: dl :: rest) =
      ⟨.success cmd (rest.take dl), true⟩ := by
  rw [List.getD_eq_getElem rest 0 hcover] at hmismatch
  simp [parse_mdc_response, hcover, hmismatch]

/-- C3 witness: frame `AA 11 01 01 01 00` for display 1 declares a 1-byte
payload and carries trailing byte 0x00 ≠ 0xBE; decode still succeeds with
payload [0x01] (warning logged). -/
theorem C3_checksum_tolerance_witness :
    parse_mdc_response 1 (0xAA :: 0x11 :: 1 :: 1 :: [0x01, 0x00]) =
      ⟨.success 0x11 [0x01], true⟩ :=
  C3_checksum_tolerance 1 0x11 1 [0x01, 0x00] (by decide) (by decide)

/-- C4 (counterexample): the 4-byte frame `AA 11 01 05` (for display 1)
declares a 5-byte payload with zero payload bytes present, yet
`_parse_mdc_response` returns success with the empty payload — Python's
slice `response[4:4+data_length]` truncates silently and no length check
exists.  This refutes the claim that such frames decode to a failure. -/
theorem C4_counterexample :
    parse_mdc_response 1 [0xAA, 0x11, 0x01, 0x05] =
      ⟨.success 0x11 [], false⟩ := by
  decide

/-- C4 (amended): for every received frame of at least 4 bytes whose declared
payload length exceeds the bytes present after the 4-byte header, decode
returns success with the truncated payload (exactly the bytes present) and
no checksum warning; it never reports a failure for this condition. -/
theorem C4_overlong_declared_length (self_id cmd dl : Nat) (rest : List Nat)
    (hover : rest.length < dl) :
    parse_mdc_response self_id (0xAA :: cmd :: self_id :: dl :: rest) =
      ⟨.success cmd rest, false⟩ := by
  have htake : rest.take dl = rest := List.take_of_length_le (le_of_lt hover)
  simp [parse_mdc_response, htake, Nat.not_lt.mpr (le_of_lt hover)]

/-- C4 witness: frame `AA 12 02 07 09` for display 2 declares 7 payload bytes
but carries one; decode succeeds with the one-byte truncated payload. -/
theorem C4_overlong_declared_length_witness :
    parse_mdc_response 2 (0xAA :: 0x12 :: 2 :: 7 :: [0x09]) =
      ⟨.success 0x12 [0x09], false⟩ :=
  C4_overlong_declared_length 2 0x12 7 [0x09] (by decide)

end SamVCP
